import Mathlib

/-!
Verification of the manga-constructor panel geometry & compositing engine.

Shallow embedding of the relevant parts of `page_constructor.py` and
`export_manager.py`.  Python floats are embedded as exact rationals (ℚ);
decimal literals of the source are taken at face value (the spec states all
round-trip properties только up to floating tolerance, which the exact
rational model subsumes).  Python `int(...)` truncation toward zero is
`truncInt`, Python `round(...)` (banker's rounding, half to even) is
`pyRound`.  Mutable objects become explicit state records; `copy.deepcopy`
is the identity under value semantics.
-/

namespace MangaConstructor

/-- Python `int(q)` on a real value: truncation toward zero. -/
def truncInt (q : ℚ) : ℤ := if 0 ≤ q then ⌊q⌋ else ⌈q⌉

/-- Python `round(q)` on a float: round half to even (banker's rounding). -/
def pyRound (q : ℚ) : ℤ :=
  let f : ℤ := ⌊q⌋
  let r : ℚ := q - f
  if r < 1/2 then f
  else if 1/2 < r then f + 1
  else if f % 2 = 0 then f else f + 1

/-- `PanelType` enum of `page_constructor.py`. -/
inductive PanelType
  | rectangular
  | round
  | splash
  | speechBubble
  | thoughtBubble
  | irregular
deriving DecidableEq

/-- `PanelStyle` dataclass of `page_constructor.py`. -/
structure PanelStyle where
  border_width : ℤ := 2
  border_color : String := "#000000"
  fill_color : String := "#FFFFFF"
  corner_radius : ℤ := 0
  shadow : Bool := false
  shadow_offset : ℤ × ℤ := (2, 2)
  shadow_color : String := "#888888"
deriving DecidableEq

/-- Exact rational value of the Python float `math.pi / 2`
(`math.pi` is the IEEE-754 double `884279719003555 / 2^48`).  No theorem
below evaluates trigonometric functions on it; it only serves as the
default of `tail_root_angle`. -/
def mathPiOverTwo : ℚ := 884279719003555 / 562949953421312

/-- `Panel` dataclass of `page_constructor.py`.  The transient Python field
`_image_content_updated_flag` is kept as `image_content_updated_flag`. -/
structure Panel where
  id : String
  x : ℚ := 0
  y : ℚ := 0
  width : ℚ := 100
  height : ℚ := 100
  panel_type : PanelType := PanelType.rectangular
  style : PanelStyle := {}
  rotation : ℚ := 0
  layer : ℤ := 0
  visible : Bool := true
  locked : Bool := false
  content_image : Option String := none
  content_text : String := ""
  selected : Bool := false
  tail_dx : ℚ := 10
  tail_dy : ℚ := 20
  tail_root_offset : ℚ := 0
  tail_root_angle : ℚ := mathPiOverTwo
  custom_points : List (ℚ × ℚ) := []
  image_offset_x : ℚ := 0
  image_offset_y : ℚ := 0
  image_scale : ℚ := 1
  image_content_updated_flag : Bool := false
deriving DecidableEq

/-- `Panel.get_bounds`. -/
def Panel.get_bounds (p : Panel) : ℚ × ℚ × ℚ × ℚ :=
  (p.x, p.y, p.x + p.width, p.y + p.height)

/-- `Panel.contains_point`. -/
def Panel.contains_point (p : Panel) (px py : ℚ) : Bool :=
  p.x ≤ px ∧ px ≤ p.x + p.width ∧ p.y ≤ py ∧ py ≤ p.y + p.height

/-- `Panel.move`. -/
def Panel.move (p : Panel) (dx dy : ℚ) : Panel :=
  { p with x := p.x + dx, y := p.y + dy }

/-- `Panel.resize`: the comment in the source says "Минимальный размер";
the enforced minimum is 10, not the 20 used elsewhere. -/
def Panel.resize (p : Panel) (new_width new_height : ℚ) : Panel :=
  { p with width := max 10 new_width, height := max 10 new_height }

/-- `Panel.reset_image_transform`. -/
def Panel.reset_image_transform (p : Panel) : Panel :=
  { p with image_offset_x := 0, image_offset_y := 0, image_scale := 1,
           image_content_updated_flag := true }

/-- `Panel.mark_visuals_for_update`. -/
def Panel.mark_visuals_for_update (p : Panel) : Panel :=
  { p with image_content_updated_flag := true }

/-- `PageConstructor.MAX_HISTORY_SIZE`. -/
def MAX_HISTORY_SIZE : ℕ := 50

/-- The state of a `PageConstructor` relevant to geometry, history and
interaction.  Tk widgets, pixel caches (`image_tk_cache`, `pil_image_cache`)
and cursor/scroll chrome are outside the embedding.  `selected_panels`
holds panel ids (Python holds object references; aliasing effects are
modelled explicitly at each use site).  The head of each history stack is
its top (Python appends/pops at the end of the list). -/
structure PCState where
  page_width : ℚ := 595
  page_height : ℚ := 842
  margin : ℚ := 20
  zoom : ℚ := 1
  grid_size : ℚ := 50
  show_grid : Bool := false
  show_guides : Bool := false
  snap_to_grid : Bool := false
  panels : List Panel := []
  selected_panels : List String := []
  undo_stack : List (List Panel) := []
  redo_stack : List (List Panel) := []
deriving DecidableEq

/-- `PageConstructor.screen_to_page`.  The source first maps the Tk window
coordinate through `canvas.canvasx/canvasy` (scroll-state chrome, external
to the embedding); the function below operates on the resulting canvas
coordinates. -/
def screen_to_page (s : PCState) (canvas_x canvas_y : ℚ) : ℚ × ℚ :=
  ((canvas_x - s.margin) / s.zoom, (canvas_y - s.margin) / s.zoom)

/-- `PageConstructor.page_to_screen`. -/
def page_to_screen (s : PCState) (page_x page_y : ℚ) : ℚ × ℚ :=
  (page_x * s.zoom + s.margin, page_y * s.zoom + s.margin)

/-- `PageConstructor.snap_to_grid_coords`. -/
def snap_to_grid_coords (s : PCState) (x y : ℚ) : ℚ × ℚ :=
  if s.snap_to_grid ∧ 0 < s.grid_size then
    ((pyRound (x / s.grid_size) : ℚ) * s.grid_size,
     (pyRound (y / s.grid_size) : ℚ) * s.grid_size)
  else (x, y)

/-- Python's substring test `c in s` for a single-character needle. -/
def strContainsChar (s : String) (c : Char) : Bool := s.data.contains c

/-- The 8 `handle_type` strings built in `PageConstructor.draw_selection`. -/
def handleTypes : List String := ["nw", "n", "ne", "e", "se", "s", "sw", "w"]

/-- `PageConstructor.resize_panel_with_handle`.  Returns the updated panel
(the source mutates `panel` in place; the cache clearing it triggers is
outside the embedding).  `current_page_x/y` are the pointer's page
coordinates, `handle_type` the dragged handle's name. -/
def resize_panel_with_handle (s : PCState) (panel : Panel) (handle_type : String)
    (current_page_x current_page_y : ℚ) : Panel :=
  let orig_x1 := panel.x
  let orig_y1 := panel.y
  let orig_x2 := panel.x + panel.width
  let orig_y2 := panel.y + panel.height
  let snapped := snap_to_grid_coords s current_page_x current_page_y
  let new_y1 := if strContainsChar handle_type 'n' then snapped.2 else orig_y1
  let new_y2 := if strContainsChar handle_type 's' then snapped.2 else orig_y2
  let new_x1 := if strContainsChar handle_type 'w' then snapped.1 else orig_x1
  let new_x2 := if strContainsChar handle_type 'e' then snapped.1 else orig_x2
  let min_page_size : ℚ := 20
  let xpair : ℚ × ℚ :=
    if new_x2 - new_x1 < min_page_size then
      if strContainsChar handle_type 'w' ∧ orig_x2 - min_page_size < new_x1 then
        (orig_x2 - min_page_size, new_x2)
      else if strContainsChar handle_type 'e' ∧ new_x2 < orig_x1 + min_page_size then
        (new_x1, orig_x1 + min_page_size)
      else if strContainsChar handle_type 'w' then (new_x2 - min_page_size, new_x2)
      else (new_x1, new_x1 + min_page_size)
    else (new_x1, new_x2)
  let ypair : ℚ × ℚ :=
    if new_y2 - new_y1 < min_page_size then
      if strContainsChar handle_type 'n' ∧ orig_y2 - min_page_size < new_y1 then
        (orig_y2 - min_page_size, new_y2)
      else if strContainsChar handle_type 's' ∧ new_y2 < orig_y1 + min_page_size then
        (new_y1, orig_y1 + min_page_size)
      else if strContainsChar handle_type 'n' then (new_y2 - min_page_size, new_y2)
      else (new_y1, new_y1 + min_page_size)
    else (new_y1, new_y2)
  -- panel.x/y/width/height are assigned, then x/y clamped, then width/height
  -- cut at the page edge, then re-inflated to the minimum, in source order.
  let px0 := max 0 xpair.1
  let py0 := max 0 ypair.1
  let pw0 := xpair.2 - xpair.1
  let ph0 := ypair.2 - ypair.1
  let pw1 := if s.page_width < px0 + pw0 then s.page_width - px0 else pw0
  let ph1 := if s.page_height < py0 + ph0 then s.page_height - py0 else ph0
  { panel with
      x := px0, y := py0,
      width := max min_page_size pw1,
      height := max min_page_size ph1,
      image_content_updated_flag := true }

/-- One axis of `resize_panel_with_handle`, abstracted over the two
booleans "this handle moves the low edge" (`ml`: the `w`/`n` tests) and
"this handle moves the high edge" (`mh`: the `e`/`s` tests); `v` is the
snapped pointer coordinate, `lo`/`hi` the panel's original edge
coordinates, `pagedim` the page extent.  Returns (position, size).
`resize_panel_with_handle` is definitionally this applied per axis
(see `resize_panel_with_handle_eq`). -/
def resizeAxis (ml mh : Bool) (v lo hi pagedim : ℚ) : ℚ × ℚ :=
  let new_lo := if ml then v else lo
  let new_hi := if mh then v else hi
  let pair : ℚ × ℚ :=
    if new_hi - new_lo < 20 then
      if ml ∧ hi - 20 < new_lo then (hi - 20, new_hi)
      else if mh ∧ new_hi < lo + 20 then (new_lo, lo + 20)
      else if ml then (new_hi - 20, new_hi)
      else (new_lo, new_lo + 20)
    else (new_lo, new_hi)
  let pos0 := max 0 pair.1
  let size0 := pair.2 - pair.1
  let size1 := if pagedim < pos0 + size0 then pagedim - pos0 else size0
  (pos0, max 20 size1)

/-- The `"move"` branch of `PageConstructor.on_mouse_drag`, for one selected
panel: `ix, iy, pw, ph` are that panel's entry in
`panel_drag_initial_states` (its geometry at mouse-down), `dx, dy` the
pointer's page-space displacement since mouse-down. -/
def on_mouse_drag_move (s : PCState) (p : Panel) (ix iy pw ph dx dy : ℚ) : Panel :=
  let nx := max 0 (min (s.page_width - pw) (ix + dx))
  let ny := max 0 (min (s.page_height - ph) (iy + dy))
  let snapped := snap_to_grid_coords s nx ny
  { p with x := snapped.1, y := snapped.2 }

/-- The image-zoom branch of `PageConstructor.on_mouse_wheel` (an
image-editing session is open on `panel`, Ctrl is not pressed).
`zoom_direction` is the string computed from the wheel event
(`"out"`/`"in"`); `mouse_page_x/y` is the pointer in page coordinates. -/
def on_mouse_wheel_image_zoom (panel : Panel) (zoom_direction : String)
    (mouse_page_x mouse_page_y : ℚ) : Panel :=
  let scale_factor : ℚ := if zoom_direction = "out" then 1 / (11/10) else 11/10
  let old_scale := panel.image_scale
  let new_scale := max (1/10) (min 10 (old_scale * scale_factor))
  if |new_scale - old_scale| < 1/1000 then panel
  else
    let mouse_in_panel_x := mouse_page_x - panel.x
    let mouse_in_panel_y := mouse_page_y - panel.y
    { panel with
        image_offset_x :=
          mouse_in_panel_x - (mouse_in_panel_x - panel.image_offset_x) * (new_scale / old_scale),
        image_offset_y :=
          mouse_in_panel_y - (mouse_in_panel_y - panel.image_offset_y) * (new_scale / old_scale),
        image_scale := new_scale,
        image_content_updated_flag := true }

/-- Bounded push used by `save_history_state` and `redo_action`: Python
appends and then pops the oldest entry (`pop(0)`) when the stack exceeds
`MAX_HISTORY_SIZE`.  Stack head = top. -/
def cap_push (x : List Panel) (stack : List (List Panel)) : List (List Panel) :=
  let st := x :: stack
  if MAX_HISTORY_SIZE < st.length then st.dropLast else st

/-- `PageConstructor.save_history_state`: clear the redo stack, push a deep
copy of the live panel list (identity under value semantics). -/
def save_history_state (s : PCState) : PCState :=
  { s with redo_stack := [], undo_stack := cap_push s.panels s.undo_stack }

/-- `PageConstructor.undo_action`.  On success the panel list is restored
from the new stack top; `_post_history_change_update` clears the selection
list (the `selected` flags it resets live on the stale pre-restore panel
objects, so the restored panels are untouched) and drops the Tk image
cache (outside the embedding).  Returns `(state, succeeded)`. -/
def undo_action (s : PCState) : PCState × Bool :=
  if 1 < s.undo_stack.length then
    ({ s with panels := s.undo_stack.tail.headI,
              undo_stack := s.undo_stack.tail,
              redo_stack := s.undo_stack.headI :: s.redo_stack,
              selected_panels := [] }, true)
  else (s, false)

/-- `PageConstructor.redo_action`.  Pops the redo top, restores it and
pushes a copy back onto the undo stack respecting `MAX_HISTORY_SIZE`. -/
def redo_action (s : PCState) : PCState × Bool :=
  match s.redo_stack with
  | [] => (s, false)
  | state_to_restore :: rest =>
    ({ s with panels := state_to_restore,
              undo_stack := cap_push state_to_restore s.undo_stack,
              redo_stack := rest,
              selected_panels := [] }, true)

/-- State projection of `undo_action` (discarding the returned Bool). -/
def undoFn (s : PCState) : PCState := (undo_action s).1

/-- State projection of `redo_action`. -/
def redoFn (s : PCState) : PCState := (redo_action s).1

/-- The history-relevant part of a `PCState`: (panels, undo stack, redo
stack).  Undo/redo/commit act on it componentwise, which lets the
round-trip argument ignore the selection bookkeeping. -/
abbrev HistCore := List Panel × List (List Panel) × List (List Panel)

/-- Projection of `PCState` onto its history core. -/
def histCore (s : PCState) : HistCore := (s.panels, s.undo_stack, s.redo_stack)

/-- `save_history_state` on the history core. -/
def coreSave (c : HistCore) : HistCore := (c.1, cap_push c.1 c.2.1, [])

/-- `undo_action` on the history core. -/
def coreUndo (c : HistCore) : HistCore :=
  if 1 < c.2.1.length then (c.2.1.tail.headI, c.2.1.tail, c.2.1.headI :: c.2.2) else c

/-- `redo_action` on the history core. -/
def coreRedo (c : HistCore) : HistCore :=
  match c.2.2 with
  | [] => c
  | x :: rest => (x, cap_push x c.2.1, rest)

/-- A reachable history configuration: nonempty undo stack whose top equals
the live panel list, within the length cap. -/
def goodCore (c : HistCore) : Prop :=
  c.2.1 ≠ [] ∧ c.2.1.headI = c.1 ∧ c.2.1.length ≤ MAX_HISTORY_SIZE

/-- `PageConstructor.create_panel`.  `fresh_id` stands for the fresh UUID
generated by the `Panel` dataclass default factory.  Appends the panel,
clears the selection (live aliasing: the flag reset reaches the panels
list), selects the new panel and pushes a history state. -/
def create_panel (s : PCState) (fresh_id : String) (x y width height : ℚ)
    (panel_type : PanelType) : PCState :=
  let panel : Panel :=
    { id := fresh_id, x := x, y := y, width := width, height := height,
      panel_type := panel_type,
      layer := if s.panels ≠ [] then ((s.panels.map Panel.layer).max?.getD (-1)) + 1 else 0,
      image_content_updated_flag := true }
  let panels1 := s.panels ++ [panel]
  let panels2 := panels1.map fun p =>
    if p.id ∈ s.selected_panels then { p with selected := false } else p
  let panels3 := panels2.map fun p =>
    if p.id = fresh_id then { p with selected := true } else p
  save_history_state { s with panels := panels3, selected_panels := [fresh_id] }

/-- The `"create"` branch of `PageConstructor.on_mouse_up`:
`start_px/py` and `cur_x/cur_y` are the page coordinates of the gesture's
press and release points; both corners are snapped independently, the
rectangle normalized by min/max, and a panel is created only when both
sides are at least 10.  Speech bubbles get the default text after the
history push (the snapshot keeps the empty text; the live object is
mutated). -/
def on_mouse_up_create (s : PCState) (fresh_id : String)
    (start_px start_py cur_x cur_y : ℚ) (creation_panel_type : PanelType) : PCState :=
  let sp := snap_to_grid_coords s start_px start_py
  let cp := snap_to_grid_coords s cur_x cur_y
  let x1 := min sp.1 cp.1
  let y1 := min sp.2 cp.2
  let x2 := max sp.1 cp.1
  let y2 := max sp.2 cp.2
  let w := x2 - x1
  let h := y2 - y1
  if 10 ≤ w ∧ 10 ≤ h then
    let s1 := create_panel s fresh_id x1 y1 w h creation_panel_type
    if creation_panel_type = PanelType.speechBubble then
      { s1 with panels := s1.panels.map fun p =>
          if p.id = fresh_id then { p with content_text := "Текст" } else p }
    else s1
  else s

/-! ## Export rasterizer (`export_manager.py`) -/

/-- `ExportFormat` enum. -/
inductive ExportFormat
  | png | jpeg | pdf | cbz | cbr | tiff | bmp | webp
deriving DecidableEq

/-- `ExportQuality` enum. -/
inductive ExportQuality
  | web | print | high | custom
deriving DecidableEq

/-- `REFERENCE_DPI_FOR_PAGE_SIZES`. -/
def REFERENCE_DPI_FOR_PAGE_SIZES : ℚ := 300

/-- `PAGE_SIZES` of `utils.py` (pixels at the 300 DPI reference). -/
def PAGE_SIZES : List (String × (ℚ × ℚ)) :=
  [("A4", (2480, 3508)),
   ("A5", (1748, 2480)),
   ("B4", (2953, 4169)),
   ("B5", (2079, 2953)),
   ("Letter", (2550, 3300)),
   ("Tabloid", (3300, 5100)),
   ("Пользовательский", (2079, 2953))]

/-- `ORIENTATIONS` of `utils.py`. -/
def ORIENTATIONS : List (String × String) :=
  [("Портретный", "portrait"), ("Альбомный", "landscape")]

/-- `mm_to_pixels` of `utils.py`: `mm / 25.4 * dpi`. -/
def mm_to_pixels (mm dpi : ℚ) : ℚ := mm / (254/10) * dpi

/-- `ExportSettings` dataclass of `export_manager.py`. -/
structure ExportSettings where
  format : ExportFormat := ExportFormat.png
  quality : ExportQuality := ExportQuality.print
  dpi : ℚ := 300
  jpeg_quality : ℤ := 95
  png_compression : ℤ := 6
  include_bleed : Bool := false
  bleed_size : ℚ := 3
  include_crop_marks : Bool := false
  include_registration_marks : Bool := false
  watermark_enabled : Bool := false
  watermark_text : String := ""
  watermark_position : String := "bottom_right"
  watermark_opacity : ℚ := 3/10
  watermark_font_size : ℤ := 12
  watermark_color : String := "#888888"
  color_profile : String := "sRGB"
  gamma_correction : ℚ := 1
  brightness : ℚ := 0
  contrast : ℚ := 0
  saturation : ℚ := 0
  background_color : String := "#FFFFFF"
  transparent_background : Bool := false
  anti_aliasing : Bool := true
  embed_fonts : Bool := true
  output_path : String := ""
  filename_template : String := "page_\x7bnumber:03d\x7d"
  include_metadata : Bool := true
  export_page_size_name : String := "Текущий холст"
  export_orientation_name : String := "Текущий холст"
  custom_export_width_px : Option ℤ := none
  custom_export_height_px : Option ℤ := none
deriving DecidableEq

/-- Stable ascending insertion by `layer` (helper for `sortPanelsByLayer`). -/
def insertByLayer (p : Panel) : List Panel → List Panel
  | [] => [p]
  | q :: rest =>
    if q.layer ≤ p.layer then q :: insertByLayer p rest else p :: q :: rest

/-- `sorted(panels, key=lambda p: p.layer)`: Python's sort is stable, and a
stable sort's output is uniquely determined, so stable insertion sort is an
exact model. -/
def sortPanelsByLayer (panels : List Panel) : List Panel :=
  panels.foldl (fun acc p => insertByLayer p acc) []

/-- The outcome of `ExportManager.render_page_to_image`: the allocated
buffer's pixel size and, in paint order, the ids of the panels actually
handed to `render_panel_to_image` (whose pixel-level compositing is outside
the embedding). -/
structure RenderedPage where
  total_width : ℤ
  total_height : ℤ
  rendered_panel_ids : List String
deriving DecidableEq

/-- The per-panel loop of `render_page_to_image`.  For each visible panel
the export bounding box is computed; a speech bubble first expands it to
cover the tail tip, but that code evaluates `math.pi`/`math.cos` and
`export_manager.py` never imports `math`, so Python raises `NameError`
there (modelled as the error case, which propagates to the enclosing
`try`).  A non-positive panel pixel box is skipped with `continue`. -/
def render_panel_loop (scale_x scale_y : ℚ) : List Panel → Except String (List String)
  | [] => Except.ok []
  | panel :: rest =>
    if panel.visible = false then render_panel_loop scale_x scale_y rest
    else if panel.panel_type = PanelType.speechBubble then
      Except.error "NameError: name 'math' is not defined"
    else
      let px1 := panel.x
      let py1 := panel.y
      let px2 := panel.x + panel.width
      let py2 := panel.y + panel.height
      let panel_export_w := truncInt ((px2 - px1) * scale_x)
      let panel_export_h := truncInt ((py2 - py1) * scale_y)
      if panel_export_w ≤ 0 ∨ panel_export_h ≤ 0 then
        render_panel_loop scale_x scale_y rest
      else
        match render_panel_loop scale_x scale_y rest with
        | Except.error e => Except.error e
        | Except.ok ids => Except.ok (panel.id :: ids)

/-- Step 1 of `ExportManager.render_page_to_image`: resolve the final page
pixel size (without bleed) from the export page-size name, orientation,
custom pixel fields and target DPI. -/
def export_page_dims (page_width page_height : ℚ) (st : ExportSettings) : ℤ × ℤ :=
  let target_dpi := st.dpi
  if st.export_page_size_name = "Текущий холст" then
    (truncInt (page_width * (target_dpi / REFERENCE_DPI_FOR_PAGE_SIZES)),
     truncInt (page_height * (target_dpi / REFERENCE_DPI_FOR_PAGE_SIZES)))
  else if st.export_page_size_name = "Пользовательский" then
    match st.custom_export_width_px, st.custom_export_height_px with
    | some cw, some ch => (cw, ch)
    | _, _ =>
      let base := ((PAGE_SIZES.lookup ("B5")).getD (2079, 2953))
      (truncInt (base.1 * (target_dpi / REFERENCE_DPI_FOR_PAGE_SIZES)),
       truncInt (base.2 * (target_dpi / REFERENCE_DPI_FOR_PAGE_SIZES)))
  else
    let base := (PAGE_SIZES.lookup st.export_page_size_name).getD (2079, 2953)
    let orientation_val :=
      if st.export_orientation_name = "Текущий холст" then
        if page_height < page_width then ("landscape" : String) else "portrait"
      else (ORIENTATIONS.lookup st.export_orientation_name).getD ("portrait")
    let based := if orientation_val = "landscape" then (base.2, base.1) else base
    (truncInt (based.1 * (target_dpi / REFERENCE_DPI_FOR_PAGE_SIZES)),
     truncInt (based.2 * (target_dpi / REFERENCE_DPI_FOR_PAGE_SIZES)))

/-- `ExportManager.render_page_to_image`.  `page_width`/`page_height` are
the `PageConstructor` canvas size in 300-DPI page units, `panels` its panel
list.  Returns `none` when the source returns `None` (invalid page pixel
size, or an exception — e.g. the `NameError` above or PIL's `ValueError`
for a negative buffer size — reaching the enclosing `except`). -/
def render_page_to_image (page_width page_height : ℚ) (panels : List Panel)
    (st : ExportSettings) : Option RenderedPage :=
  let target_dpi := st.dpi
  let export_page_width_px := (export_page_dims page_width page_height st).1
  let export_page_height_px := (export_page_dims page_width page_height st).2
  if export_page_width_px ≤ 0 ∨ export_page_height_px ≤ 0 then none
  else
    let bleed_pixels : ℤ :=
      if st.include_bleed then truncInt (mm_to_pixels st.bleed_size target_dpi) else 0
    let total_img_width := export_page_width_px + bleed_pixels * 2
    let total_img_height := export_page_height_px + bleed_pixels * 2
    -- PIL's Image.new raises ValueError on a negative size (caught by the
    -- enclosing except → None); a zero size yields an empty image.
    if total_img_width < 0 ∨ total_img_height < 0 then none
    else if page_width = 0 ∨ page_height = 0 then
      some { total_width := total_img_width, total_height := total_img_height,
             rendered_panel_ids := [] }
    else
      let scale_content_x := (export_page_width_px : ℚ) / page_width
      let scale_content_y := (export_page_height_px : ℚ) / page_height
      match render_panel_loop scale_content_x scale_content_y (sortPanelsByLayer panels) with
      | Except.error _ => none
      | Except.ok ids =>
        some { total_width := total_img_width, total_height := total_img_height,
               rendered_panel_ids := ids }

/-! ## Theorems -/

/-- C9: for every page coordinate `(x, y)` and every state whose zoom lies
in the clamped range `[0.01, 10.0]`, `screen_to_page` is the exact inverse
of `page_to_screen`: the round trip returns `(x, y)` (exactly, in the
rational model, which subsumes the claim's floating-point tolerance). -/
theorem c9_screen_page_roundtrip (s : PCState) (x y : ℚ)
    (hz1 : 1/100 ≤ s.zoom) (_hz2 : s.zoom ≤ 10) :
    screen_to_page s (page_to_screen s x y).1 (page_to_screen s x y).2 = (x, y) := by
  have hz : s.zoom ≠ 0 := by
    intro h
    rw [h] at hz1
    norm_num at hz1
  have key : ∀ a : ℚ, (a * s.zoom + s.margin - s.margin) / s.zoom = a := fun a => by
    rw [add_sub_cancel_right, mul_div_cancel_right₀ a hz]
  simp only [screen_to_page, page_to_screen, key]

/-- Witness for C9 at zoom 1, margin 20, point (3, 4). -/
theorem c9_screen_page_roundtrip_witness :
    1/100 ≤ ({} : PCState).zoom ∧ ({} : PCState).zoom ≤ 10 ∧
    screen_to_page {} (page_to_screen {} 3 4).1 (page_to_screen {} 3 4).2 = (3, 4) :=
  ⟨by norm_num, by norm_num,
   c9_screen_page_roundtrip {} 3 4 (by norm_num) (by norm_num)⟩

/-- C10: `undo_action` is a no-op returning `false` whenever the undo stack
has fewer than 2 entries, and `redo_action` is a no-op returning `false`
whenever the redo stack is empty; in both cases the whole state (in
particular the panel collection) is unchanged. -/
theorem c10_undo_redo_noop (s : PCState) :
    (s.undo_stack.length < 2 → undo_action s = (s, false)) ∧
    (s.redo_stack = [] → redo_action s = (s, false)) := by
  constructor
  · intro hlt
    have h : ¬ 1 < s.undo_stack.length := by omega
    simp [undo_action, h]
  · intro hr
    simp only [redo_action]
    rw [hr]

/-- Witness for C10 on the freshly constructed state (empty stacks). -/
theorem c10_undo_redo_noop_witness :
    undo_action {} = ({}, false) ∧ redo_action {} = ({}, false) :=
  ⟨(c10_undo_redo_noop {}).1 (by simp), (c10_undo_redo_noop {}).2 (by simp)⟩

/-- C3 counterexample: a drag-to-create rectangle of 15×15 page units is
smaller than 20 in both dimensions, yet releasing the mouse DOES add a
panel and push a history entry — the source's threshold is 10, not the
minimum panel size 20 used by handle resizing. -/
theorem c3_counterexample :
    (15 : ℚ) < 20 ∧
    (on_mouse_up_create {} ("p1") 0 0 15 15 PanelType.rectangular).panels.length = 1 ∧
    (on_mouse_up_create {} ("p1") 0 0 15 15 PanelType.rectangular).undo_stack.length = 1 ∧
    ({} : PCState).panels.length = 0 ∧ ({} : PCState).undo_stack.length = 0 := by
  have hne : PanelType.rectangular ≠ PanelType.speechBubble := by decide
  refine ⟨by norm_num, ?_, ?_, rfl, rfl⟩ <;>
    norm_num [on_mouse_up_create, create_panel, save_history_state, cap_push,
              snap_to_grid_coords, MAX_HISTORY_SIZE, hne]

/-- C3 (amended): the drag-to-create minimum is 10 page units, not 20: when
the normalized (snapped, min/max-ordered) rectangle is smaller than 10 in
either dimension, releasing the mouse adds no panel and pushes no history
entry — the whole state is unchanged. -/
theorem c3_amended_small_create_discarded (s : PCState) (fresh_id : String)
    (start_px start_py cur_x cur_y : ℚ) (pt : PanelType)
    (hsmall :
      max (snap_to_grid_coords s start_px start_py).1 (snap_to_grid_coords s cur_x cur_y).1
        - min (snap_to_grid_coords s start_px start_py).1 (snap_to_grid_coords s cur_x cur_y).1 < 10 ∨
      max (snap_to_grid_coords s start_px start_py).2 (snap_to_grid_coords s cur_x cur_y).2
        - min (snap_to_grid_coords s start_px start_py).2 (snap_to_grid_coords s cur_x cur_y).2 < 10) :
    on_mouse_up_create s fresh_id start_px start_py cur_x cur_y pt = s := by
  simp only [on_mouse_up_create]
  rw [if_neg]
  rcases hsmall with h | h
  · exact fun hc => absurd hc.1 (not_le.mpr h)
  · exact fun hc => absurd hc.2 (not_le.mpr h)

/-- Witness for C3's amended theorem: a 5×5 rectangle is discarded. -/
theorem c3_amended_small_create_discarded_witness :
    on_mouse_up_create {} ("p1") 0 0 5 5 PanelType.rectangular = {} :=
  c3_amended_small_create_discarded {} ("p1") 0 0 5 5 PanelType.rectangular
    (by norm_num [snap_to_grid_coords])

/-- C8: during an open content-pan session, a wheel notch multiplies the
panel's `image_scale` by 1.1 (zoom in) or by 1/1.1 (zoom out), and each
offset becomes `cursor_in_panel − (cursor_in_panel − old_offset) ·
(new_scale/old_scale)`, so the content point under the cursor stays fixed;
precondition: the new scale lies strictly inside the clamp range
(0.1, 10). -/
theorem c8_wheel_zoom (panel : Panel) (zoom_direction : String) (mx my : ℚ)
    (hlo : 1/10 < panel.image_scale * (if zoom_direction = "out" then 1/(11/10) else 11/10))
    (hhi : panel.image_scale * (if zoom_direction = "out" then 1/(11/10) else 11/10) < 10) :
    ((on_mouse_wheel_image_zoom panel zoom_direction mx my).image_scale
        = panel.image_scale * (if zoom_direction = "out" then 1/(11/10) else 11/10)) ∧
    ((on_mouse_wheel_image_zoom panel zoom_direction mx my).image_offset_x
        = (mx - panel.x) - ((mx - panel.x) - panel.image_offset_x)
            * ((on_mouse_wheel_image_zoom panel zoom_direction mx my).image_scale
                / panel.image_scale)) ∧
    ((on_mouse_wheel_image_zoom panel zoom_direction mx my).image_offset_y
        = (my - panel.y) - ((my - panel.y) - panel.image_offset_y)
            * ((on_mouse_wheel_image_zoom panel zoom_direction mx my).image_scale
                / panel.image_scale)) ∧
    ((on_mouse_wheel_image_zoom panel zoom_direction mx my).image_offset_x
        + ((mx - panel.x) - panel.image_offset_x) / panel.image_scale
            * (on_mouse_wheel_image_zoom panel zoom_direction mx my).image_scale
        = mx - panel.x) ∧
    ((on_mouse_wheel_image_zoom panel zoom_direction mx my).image_offset_y
        + ((my - panel.y) - panel.image_offset_y) / panel.image_scale
            * (on_mouse_wheel_image_zoom panel zoom_direction mx my).image_scale
        = my - panel.y) := by
  set F : ℚ := (if zoom_direction = "out" then 1/(11/10) else (11/10 : ℚ)) with hF
  have hFv : F = 10/11 ∨ F = 11/10 := by
    by_cases hd : zoom_direction = "out"
    · left
      rw [hF, if_pos hd]
      norm_num
    · right
      rw [hF, if_neg hd]
  have hpos : 0 < panel.image_scale := by
    rcases hFv with h | h <;> rw [h] at hlo <;> nlinarith
  have hne0 : panel.image_scale ≠ 0 := ne_of_gt hpos
  have habs : ¬ |panel.image_scale * F - panel.image_scale| < 1/1000 := by
    rcases hFv with h | h <;> rw [h] at hlo ⊢
    · rw [abs_of_nonpos (by linarith)]
      linarith
    · rw [abs_of_nonneg (by linarith)]
      linarith
  have core : on_mouse_wheel_image_zoom panel zoom_direction mx my =
      { panel with
          image_offset_x := (mx - panel.x) - ((mx - panel.x) - panel.image_offset_x)
            * (panel.image_scale * F / panel.image_scale),
          image_offset_y := (my - panel.y) - ((my - panel.y) - panel.image_offset_y)
            * (panel.image_scale * F / panel.image_scale),
          image_scale := panel.image_scale * F,
          image_content_updated_flag := true } := by
    simp only [on_mouse_wheel_image_zoom, ← hF]
    rw [min_eq_right (le_of_lt hhi), max_eq_right (le_of_lt hlo), if_neg habs]
  rw [core]
  refine ⟨rfl, rfl, rfl, ?_, ?_⟩ <;>
    · show _ - _ * (_ / _) + _ / _ * _ = _
      field_simp
      ring

/-- Witness for C8: scale 1, zoom in (direction not `"out"`), cursor at
(30, 40) over a panel at the origin with offset (0, 0). -/
theorem c8_wheel_zoom_witness :
    (1/10 : ℚ) < ({ id := ("w8") } : Panel).image_scale
        * (if ("in" : String) = "out" then 1/(11/10) else 11/10) ∧
    ({ id := ("w8") } : Panel).image_scale
        * (if ("in" : String) = "out" then 1/(11/10) else 11/10) < 10 ∧
    ((on_mouse_wheel_image_zoom { id := ("w8") } ("in") 30 40).image_scale
        = ({ id := ("w8") } : Panel).image_scale
            * (if ("in" : String) = "out" then 1/(11/10) else 11/10)) := by
  have hd : ("in" : String) ≠ "out" := by simp
  have h1 : (1/10 : ℚ) < ({ id := ("w8") } : Panel).image_scale
      * (if ("in" : String) = "out" then 1/(11/10) else 11/10) := by
    simp only [if_neg hd]
    norm_num
  have h2 : ({ id := ("w8") } : Panel).image_scale
      * (if ("in" : String) = "out" then 1/(11/10) else 11/10) < 10 := by
    simp only [if_neg hd]
    norm_num
  exact ⟨h1, h2, (c8_wheel_zoom { id := ("w8") } ("in") 30 40 h1 h2).1⟩

/-- `resize_panel_with_handle` acts independently on each axis as
`resizeAxis` (definitional repackaging of the source transcription). -/
theorem resize_panel_with_handle_eq (s : PCState) (p : Panel) (h : String) (cx cy : ℚ) :
    resize_panel_with_handle s p h cx cy =
    { p with
        x := (resizeAxis (strContainsChar h 'w') (strContainsChar h 'e')
                (snap_to_grid_coords s cx cy).1 p.x (p.x + p.width) s.page_width).1,
        width := (resizeAxis (strContainsChar h 'w') (strContainsChar h 'e')
                (snap_to_grid_coords s cx cy).1 p.x (p.x + p.width) s.page_width).2,
        y := (resizeAxis (strContainsChar h 'n') (strContainsChar h 's')
                (snap_to_grid_coords s cx cy).2 p.y (p.y + p.height) s.page_height).1,
        height := (resizeAxis (strContainsChar h 'n') (strContainsChar h 's')
                (snap_to_grid_coords s cx cy).2 p.y (p.y + p.height) s.page_height).2,
        image_content_updated_flag := true } := rfl

/-- `resizeAxis` keeps the axis inside `[0, pagedim]` with size at least 20,
whenever the handle does not move both edges at once and the incoming edge
pair already satisfied the invariant. -/
theorem resizeAxis_bounds (ml mh : Bool) (hml : ¬(ml = true ∧ mh = true))
    (v lo hi pagedim : ℚ) (hpage : 20 ≤ pagedim) (hlo : 0 ≤ lo) (hhi : hi ≤ pagedim)
    (hsize : 20 ≤ hi - lo) :
    0 ≤ (resizeAxis ml mh v lo hi pagedim).1 ∧
    (resizeAxis ml mh v lo hi pagedim).1 + (resizeAxis ml mh v lo hi pagedim).2 ≤ pagedim ∧
    20 ≤ (resizeAxis ml mh v lo hi pagedim).2 := by
  cases ml <;> cases mh
  case true.true => exact absurd ⟨rfl, rfl⟩ hml
  all_goals
    simp only [resizeAxis, Bool.false_eq_true, if_true, if_false, false_and, true_and,
      ite_true, ite_false, and_self, apply_ite Prod.fst, apply_ite Prod.snd, max_def]
  all_goals
    split_ifs <;> exact ⟨by linarith, by linarith, by linarith⟩

/-- When the handle does not move the low edge, `resizeAxis` leaves the low
edge exactly where it was (given the invariant `0 ≤ lo`, `20 ≤ hi - lo`). -/
theorem resizeAxis_lo_fixed (mh : Bool) (v lo hi pagedim : ℚ) (hlo : 0 ≤ lo)
    (hsize : 20 ≤ hi - lo) :
    (resizeAxis false mh v lo hi pagedim).1 = lo := by
  cases mh <;>
    simp only [resizeAxis, Bool.false_eq_true, if_true, if_false, false_and, true_and,
      ite_true, ite_false, and_self, apply_ite Prod.fst, apply_ite Prod.snd, max_def] <;>
    split_ifs <;> linarith

/-- When the handle does not move the high edge, `resizeAxis` leaves the
high edge exactly where it was — provided the snapped pointer coordinate is
nonnegative when the low edge moves (otherwise the `max(0, ·)` clamp shifts
the high edge; see the C4 counterexample). -/
theorem resizeAxis_hi_fixed (ml : Bool) (v lo hi pagedim : ℚ) (hlo : 0 ≤ lo)
    (hhi : hi ≤ pagedim) (hsize : 20 ≤ hi - lo) (hv : ml = true → 0 ≤ v) :
    (resizeAxis ml false v lo hi pagedim).1 + (resizeAxis ml false v lo hi pagedim).2 = hi := by
  cases ml
  all_goals
    simp only [resizeAxis, Bool.false_eq_true, if_true, if_false, false_and, true_and,
      ite_true, ite_false, and_self, apply_ite Prod.fst, apply_ite Prod.snd, max_def]
  case false =>
    split_ifs <;> linarith
  case true =>
    have hv0 : 0 ≤ v := hv rfl
    split_ifs <;> linarith

/-- C1 counterexample: `Panel.resize` is also a resize operation, and it
enforces a minimum of 10, not 20 (and clamps nothing to the page): resizing
a valid panel to 5×5 leaves width 10 < 20, falsifying the claimed
invariant `width ≥ 20` after any resize. -/
theorem c1_counterexample :
    ((({ id := ("p0") } : Panel).resize 5 5).width = 10) ∧
    ¬(20 ≤ (({ id := ("p0") } : Panel).resize 5 5).width) := by
  constructor <;> norm_num [Panel.resize]

/-- C1 (amended): after a resize via `resize_panel_with_handle` with any of
the 8 handles, a panel that satisfied `0 ≤ x`, `0 ≤ y`,
`x+width ≤ page_width`, `y+height ≤ page_height`, `width, height ≥ 20` (on
a page at least 20 units in each dimension) satisfies the same bounds
again; and an interactive move drag with grid snapping disabled also keeps
them (sizes unchanged).  `Panel.resize` itself, however, only enforces a
minimum of 10 and is not clamped (see the counterexample). -/
theorem c1_amended_resize_move_invariant (s : PCState) (p : Panel) (handle : String)
    (cx cy : ℚ) (hhandle : handle ∈ handleTypes)
    (hW : 20 ≤ s.page_width) (hH : 20 ≤ s.page_height)
    (hx : 0 ≤ p.x) (hy : 0 ≤ p.y)
    (hxw : p.x + p.width ≤ s.page_width) (hyh : p.y + p.height ≤ s.page_height)
    (hw : 20 ≤ p.width) (hh : 20 ≤ p.height) :
    (0 ≤ (resize_panel_with_handle s p handle cx cy).x ∧
     0 ≤ (resize_panel_with_handle s p handle cx cy).y ∧
     (resize_panel_with_handle s p handle cx cy).x
       + (resize_panel_with_handle s p handle cx cy).width ≤ s.page_width ∧
     (resize_panel_with_handle s p handle cx cy).y
       + (resize_panel_with_handle s p handle cx cy).height ≤ s.page_height ∧
     20 ≤ (resize_panel_with_handle s p handle cx cy).width ∧
     20 ≤ (resize_panel_with_handle s p handle cx cy).height) ∧
    (s.snap_to_grid = false → ∀ dx dy : ℚ,
     0 ≤ (on_mouse_drag_move s p p.x p.y p.width p.height dx dy).x ∧
     0 ≤ (on_mouse_drag_move s p p.x p.y p.width p.height dx dy).y ∧
     (on_mouse_drag_move s p p.x p.y p.width p.height dx dy).x
       + (on_mouse_drag_move s p p.x p.y p.width p.height dx dy).width ≤ s.page_width ∧
     (on_mouse_drag_move s p p.x p.y p.width p.height dx dy).y
       + (on_mouse_drag_move s p p.x p.y p.width p.height dx dy).height ≤ s.page_height ∧
     20 ≤ (on_mouse_drag_move s p p.x p.y p.width p.height dx dy).width ∧
     20 ≤ (on_mouse_drag_move s p p.x p.y p.width p.height dx dy).height) := by
  constructor
  · have hwe : ¬(strContainsChar handle 'w' = true ∧ strContainsChar handle 'e' = true) := by
      fin_cases hhandle <;> decide
    have hns : ¬(strContainsChar handle 'n' = true ∧ strContainsChar handle 's' = true) := by
      fin_cases hhandle <;> decide
    rw [resize_panel_with_handle_eq]
    obtain ⟨hx1, hx2, hx3⟩ := resizeAxis_bounds (strContainsChar handle 'w')
      (strContainsChar handle 'e') hwe (snap_to_grid_coords s cx cy).1
      p.x (p.x + p.width) s.page_width hW hx hxw (by linarith)
    obtain ⟨hy1, hy2, hy3⟩ := resizeAxis_bounds (strContainsChar handle 'n')
      (strContainsChar handle 's') hns (snap_to_grid_coords s cx cy).2
      p.y (p.y + p.height) s.page_height hH hy hyh (by linarith)
    exact ⟨hx1, hy1, hx2, hy2, hx3, hy3⟩
  · intro hsnap dx dy
    have hcond : ¬(s.snap_to_grid = true ∧ 0 < s.grid_size) := by
      rw [hsnap]
      simp
    simp only [on_mouse_drag_move, snap_to_grid_coords, hcond, if_neg, ite_false]
    refine ⟨le_max_left _ _, le_max_left _ _, ?_, ?_, hw, hh⟩ <;>
      · dsimp only
        have h1 : min (s.page_width - p.width) (p.x + dx) ≤ s.page_width - p.width :=
          min_le_left _ _
        have h2 : min (s.page_height - p.height) (p.y + dy) ≤ s.page_height - p.height :=
          min_le_left _ _
        simp only [max_def]
        split_ifs <;> linarith

/-- Witness for C1's amended theorem: the default page, a valid 100×100
panel at (40, 40), the `se` handle dragged to (700, 900) (outside the
page: the result is clamped to the page bounds). -/
theorem c1_amended_resize_move_invariant_witness :
    0 ≤ (resize_panel_with_handle {} { id := ("p0"), x := 40, y := 40 } ("se") 700 900).x ∧
    (resize_panel_with_handle {} { id := ("p0"), x := 40, y := 40 } ("se") 700 900).x
      + (resize_panel_with_handle {} { id := ("p0"), x := 40, y := 40 } ("se") 700 900).width
      ≤ ({} : PCState).page_width ∧
    20 ≤ (resize_panel_with_handle {} { id := ("p0"), x := 40, y := 40 } ("se") 700 900).width := by
  obtain ⟨h1, _, h3, _, h5, _⟩ :=
    (c1_amended_resize_move_invariant {} { id := ("p0"), x := 40, y := 40 } ("se") 700 900
      (by decide) (by norm_num) (by norm_num) (by norm_num) (by norm_num)
      (by norm_num) (by norm_num) (by norm_num) (by norm_num)).1
  exact ⟨h1, h3, h5⟩

/-- C4 counterexample: dragging the `w` handle of a valid panel at
(100, 100, 100×100) to pointer x = −50 changes the EAST edge as well: the
`max(0, ·)` clamp moves x to 0 while the already-computed width 250 stays,
so the east edge jumps from 200 to 250 although a `w` handle should leave
it fixed. -/
theorem c4_counterexample :
    (resize_panel_with_handle {} { id := ("p0"), x := 100, y := 100 } ("w") (-50) 150).x
      + (resize_panel_with_handle {} { id := ("p0"), x := 100, y := 100 } ("w") (-50) 150).width
      ≠ ({ id := ("p0"), x := 100, y := 100 } : Panel).x
        + ({ id := ("p0"), x := 100, y := 100 } : Panel).width := by
  have hw : strContainsChar ("w") 'w' = true := by decide
  have he : strContainsChar ("w") 'e' = false := by decide
  have hn : strContainsChar ("w") 'n' = false := by decide
  have hs : strContainsChar ("w") 's' = false := by decide
  rw [resize_panel_with_handle_eq]
  norm_num [resizeAxis, hw, he, hn, hs, snap_to_grid_coords]

/-- C4 (amended): resizing via any of the 8 handles changes only the edges
implied by the handle's name — each non-implied edge coordinate is exactly
unchanged — PROVIDED the snapped pointer coordinate is nonnegative on every
axis whose low (`w`/`n`) edge the handle moves; when the pointer crosses
the page's left/top border, the `max(0, ·)` clamp can shift the opposite
edge (see the counterexample). -/
theorem c4_amended_handle_moves_only_implied_edges (s : PCState) (p : Panel)
    (handle : String) (cx cy : ℚ) (_hhandle : handle ∈ handleTypes)
    (hx : 0 ≤ p.x) (hy : 0 ≤ p.y)
    (hxw : p.x + p.width ≤ s.page_width) (hyh : p.y + p.height ≤ s.page_height)
    (hw : 20 ≤ p.width) (hh : 20 ≤ p.height)
    (hsnapw : strContainsChar handle 'w' = true → 0 ≤ (snap_to_grid_coords s cx cy).1)
    (hsnapn : strContainsChar handle 'n' = true → 0 ≤ (snap_to_grid_coords s cx cy).2) :
    (strContainsChar handle 'w' = false →
      (resize_panel_with_handle s p handle cx cy).x = p.x) ∧
    (strContainsChar handle 'e' = false →
      (resize_panel_with_handle s p handle cx cy).x
        + (resize_panel_with_handle s p handle cx cy).width = p.x + p.width) ∧
    (strContainsChar handle 'n' = false →
      (resize_panel_with_handle s p handle cx cy).y = p.y) ∧
    (strContainsChar handle 's' = false →
      (resize_panel_with_handle s p handle cx cy).y
        + (resize_panel_with_handle s p handle cx cy).height = p.y + p.height) := by
  rw [resize_panel_with_handle_eq]
  refine ⟨fun hfw => ?_, fun hfe => ?_, fun hfn => ?_, fun hfs => ?_⟩ <;> dsimp only
  · rw [hfw]
    exact resizeAxis_lo_fixed _ _ _ _ _ hx (by linarith)
  · rw [hfe]
    exact resizeAxis_hi_fixed _ _ _ _ _ hx hxw (by linarith) hsnapw
  · rw [hfn]
    exact resizeAxis_lo_fixed _ _ _ _ _ hy (by linarith)
  · rw [hfs]
    exact resizeAxis_hi_fixed _ _ _ _ _ hy hyh (by linarith) hsnapn

/-- Witness for C4's amended theorem: the `e` handle dragged to (300, 300)
on a valid panel leaves the west, north and south edges unchanged. -/
theorem c4_amended_handle_moves_only_implied_edges_witness :
    (resize_panel_with_handle {} { id := ("p0"), x := 40, y := 40 } ("e") 300 300).x
      = ({ id := ("p0"), x := 40, y := 40 } : Panel).x ∧
    (resize_panel_with_handle {} { id := ("p0"), x := 40, y := 40 } ("e") 300 300).y
      = ({ id := ("p0"), x := 40, y := 40 } : Panel).y := by
  obtain ⟨h1, _, h3, _⟩ :=
    c4_amended_handle_moves_only_implied_edges {} { id := ("p0"), x := 40, y := 40 }
      ("e") 300 300 (by decide) (by norm_num) (by norm_num) (by norm_num) (by norm_num)
      (by norm_num) (by norm_num)
      (fun hc => absurd hc (by decide)) (fun hc => absurd hc (by decide))
  exact ⟨h1 (by decide), h3 (by decide)⟩

/-! Homomorphism of the history operations onto the history core, and the
undo/redo round-trip argument for C2. -/

theorem cap_push_eq_cons (x : List Panel) (l : List (List Panel))
    (h : l.length + 1 ≤ MAX_HISTORY_SIZE) : cap_push x l = x :: l := by
  simp only [cap_push]
  rw [if_neg]
  simp only [List.length_cons, not_lt]
  omega

theorem cap_push_length_le (x : List Panel) (l : List (List Panel))
    (h : l.length ≤ MAX_HISTORY_SIZE) :
    (cap_push x l).length ≤ MAX_HISTORY_SIZE := by
  simp only [cap_push]
  split_ifs with hc
  · simp only [List.length_dropLast, List.length_cons]
    omega
  · simp only [List.length_cons] at hc ⊢
    omega

theorem cap_push_headI (x : List Panel) (l : List (List Panel)) :
    (cap_push x l).headI = x := by
  simp only [cap_push]
  split_ifs with hc
  · cases l with
    | nil => simp [MAX_HISTORY_SIZE] at hc
    | cons a t =>
      rw [List.dropLast_cons_of_ne_nil (by simp)]
      rfl
  · rfl

theorem cap_push_ne_nil (x : List Panel) (l : List (List Panel)) :
    cap_push x l ≠ [] := by
  simp only [cap_push]
  split_ifs with hc
  · cases l with
    | nil => simp [MAX_HISTORY_SIZE] at hc
    | cons a t =>
      rw [List.dropLast_cons_of_ne_nil (by simp)]
      simp
  · simp

theorem histCore_save (s : PCState) :
    histCore (save_history_state s) = coreSave (histCore s) := rfl

theorem histCore_undo (s : PCState) :
    histCore (undoFn s) = coreUndo (histCore s) := by
  by_cases h : 1 < s.undo_stack.length <;>
    simp [histCore, undoFn, undo_action, coreUndo, h]

theorem histCore_redo (s : PCState) :
    histCore (redoFn s) = coreRedo (histCore s) := by
  rcases hr : s.redo_stack with _ | ⟨x, rest⟩ <;>
    simp [histCore, redoFn, redo_action, coreRedo, hr]

theorem histCore_save_iter (n : ℕ) (s : PCState) :
    histCore (save_history_state^[n] s) = coreSave^[n] (histCore s) := by
  induction n generalizing s with
  | zero => rfl
  | succ m ih =>
    rw [Function.iterate_succ_apply, Function.iterate_succ_apply, ih, histCore_save]

theorem histCore_undo_iter (k : ℕ) (s : PCState) :
    histCore (undoFn^[k] s) = coreUndo^[k] (histCore s) := by
  induction k generalizing s with
  | zero => rfl
  | succ m ih =>
    rw [Function.iterate_succ_apply, Function.iterate_succ_apply, ih, histCore_undo]

theorem histCore_redo_iter (k : ℕ) (s : PCState) :
    histCore (redoFn^[k] s) = coreRedo^[k] (histCore s) := by
  induction k generalizing s with
  | zero => rfl
  | succ m ih =>
    rw [Function.iterate_succ_apply, Function.iterate_succ_apply, ih, histCore_redo]

theorem coreUndo_fixed (c : HistCore) (h : ¬ 1 < c.2.1.length) : coreUndo c = c := by
  simp [coreUndo, h]

theorem coreRedo_fixed (c : HistCore) (h : c.2.2 = []) : coreRedo c = c := by
  obtain ⟨p, u, r⟩ := c
  simp only at h
  subst h
  rfl

theorem coreRedo_coreUndo (c : HistCore) (h2 : 1 < c.2.1.length)
    (hhead : c.2.1.headI = c.1) (hlen : c.2.1.length ≤ MAX_HISTORY_SIZE) :
    coreRedo (coreUndo c) = c := by
  obtain ⟨p, u, r⟩ := c
  cases u with
  | nil => simp at h2
  | cons a u' =>
    simp only [List.length_cons] at h2 hlen
    simp only [List.headI] at hhead
    subst hhead
    have hcap : cap_push a u' = a :: u' := cap_push_eq_cons _ _ hlen
    have hu : coreUndo (a, a :: u', r) = (u'.headI, u', a :: r) := by
      simp [coreUndo, h2]
    have hrd : coreRedo (u'.headI, u', a :: r) = (a, cap_push a u', r) := rfl
    rw [hu, hrd, hcap]

theorem coreUndo_good (c : HistCore) (h : goodCore c) : goodCore (coreUndo c) := by
  by_cases h2 : 1 < c.2.1.length
  · obtain ⟨p, u, r⟩ := c
    cases u with
    | nil => simp at h2
    | cons a u' =>
      cases u' with
      | nil => simp at h2
      | cons b u'' =>
        have hu : coreUndo (p, a :: b :: u'', r) = ((b :: u'').headI, b :: u'', a :: r) := by
          simp [coreUndo]
        rw [hu]
        have hcap := h.2.2
        simp only [List.length_cons] at hcap
        exact ⟨by simp, rfl, by simp only [List.length_cons]; omega⟩
  · rw [coreUndo_fixed c h2]
    exact h

theorem coreUndo_length (c : HistCore) (h2 : 1 < c.2.1.length) :
    (coreUndo c).2.1.length + 1 = c.2.1.length := by
  obtain ⟨p, u, r⟩ := c
  cases u with
  | nil => simp at h2
  | cons a u' =>
    simp only [List.length_cons] at h2
    simp [coreUndo, show (0:ℕ) < u'.length by omega]

theorem core_roundtrip_bounded (k : ℕ) :
    ∀ c : HistCore, goodCore c → k + 1 ≤ c.2.1.length →
      coreRedo^[k] (coreUndo^[k] c) = c ∧
      (coreUndo^[k] c).2.1.length + k = c.2.1.length ∧
      goodCore (coreUndo^[k] c) := by
  induction k with
  | zero => exact fun c hg _ => ⟨rfl, rfl, hg⟩
  | succ n ih =>
    intro c hg hk
    have hn1 : n + 1 ≤ c.2.1.length := by omega
    obtain ⟨hround, hlen, hgood⟩ := ih c hg hn1
    have hT2 : 1 < (coreUndo^[n] c).2.1.length := by omega
    refine ⟨?_, ?_, ?_⟩
    · rw [Function.iterate_succ_apply' (f := coreUndo),
          Function.iterate_succ_apply (f := coreRedo),
          coreRedo_coreUndo _ hT2 hgood.2.1 hgood.2.2]
      exact hround
    · rw [Function.iterate_succ_apply' (f := coreUndo)]
      have := coreUndo_length _ hT2
      omega
    · rw [Function.iterate_succ_apply' (f := coreUndo)]
      exact coreUndo_good _ hgood

theorem core_roundtrip (c : HistCore) (hg : goodCore c) (hr : c.2.2 = []) (k : ℕ) :
    coreRedo^[k] (coreUndo^[k] c) = c := by
  rcases le_or_lt (k + 1) c.2.1.length with hk | hk
  · exact (core_roundtrip_bounded k c hg hk).1
  · have hL : 1 ≤ c.2.1.length := List.length_pos.mpr hg.1
    have hm1 : (c.2.1.length - 1) + 1 ≤ c.2.1.length := by omega
    obtain ⟨hround, hlen, hgood⟩ := core_roundtrip_bounded (c.2.1.length - 1) c hg hm1
    have hfix : coreUndo (coreUndo^[c.2.1.length - 1] c) = coreUndo^[c.2.1.length - 1] c := by
      apply coreUndo_fixed
      omega
    have hku : coreUndo^[k] c = coreUndo^[c.2.1.length - 1] c := by
      have hkm : k = (k - (c.2.1.length - 1)) + (c.2.1.length - 1) := by omega
      rw [hkm, Function.iterate_add_apply, Function.iterate_fixed hfix]
    rw [hku]
    have hkr : coreRedo^[k] (coreUndo^[c.2.1.length - 1] c)
        = coreRedo^[k - (c.2.1.length - 1)]
            (coreRedo^[c.2.1.length - 1] (coreUndo^[c.2.1.length - 1] c)) := by
      rw [← Function.iterate_add_apply]
      congr 1
      omega
    rw [hkr, hround, Function.iterate_fixed (coreRedo_fixed c hr)]

theorem coreSave_good (c : HistCore) (hlen : c.2.1.length ≤ MAX_HISTORY_SIZE) :
    goodCore (coreSave c) ∧ (coreSave c).2.2 = [] ∧ (coreSave c).1 = c.1 :=
  ⟨⟨cap_push_ne_nil _ _, cap_push_headI _ _, cap_push_length_le _ _ hlen⟩, rfl, rfl⟩

theorem coreSave_iter_good (n : ℕ) (hn : 1 ≤ n) (c : HistCore)
    (hlen : c.2.1.length ≤ MAX_HISTORY_SIZE) :
    goodCore (coreSave^[n] c) ∧ (coreSave^[n] c).2.2 = [] ∧ (coreSave^[n] c).1 = c.1 := by
  induction n with
  | zero => omega
  | succ m ih =>
    cases Nat.eq_or_lt_of_le hn with
    | inl h1 =>
      have hm : m = 0 := by omega
      subst hm
      exact coreSave_good c hlen
    | inr h1 =>
      have hm : 1 ≤ m := by omega
      obtain ⟨hg, _, hp⟩ := ih hm
      rw [Function.iterate_succ_apply' (f := coreSave)]
      obtain ⟨hg2, hr2, hp2⟩ := coreSave_good (coreSave^[m] c) hg.2.2
      exact ⟨hg2, hr2, by rw [hp2, hp]⟩

/-- C2: starting from any state whose undo stack respects the 50-entry cap,
after `n ≥ 1` commits (`save_history_state`), applying `undo_action` `k`
times and then `redo_action` the same `k` times reproduces exactly the
pre-undo panel list (structural equality of the `Panel` records: every
field, including `id`).  `k` is unconstrained: undos beyond the permanent
floor entry and redos beyond the replayable entries are no-ops that cancel
out. -/
theorem c2_commits_undo_redo_roundtrip (s0 : PCState) (n k : ℕ) (hn : 1 ≤ n)
    (hlen : s0.undo_stack.length ≤ MAX_HISTORY_SIZE) :
    (redoFn^[k] (undoFn^[k] (save_history_state^[n] s0))).panels
      = (save_history_state^[n] s0).panels := by
  have hsave : histCore (save_history_state^[n] s0) = coreSave^[n] (histCore s0) :=
    histCore_save_iter n s0
  obtain ⟨hg, hr, _⟩ := coreSave_iter_good n hn (histCore s0) hlen
  have hg' : goodCore (histCore (save_history_state^[n] s0)) := by
    rw [hsave]
    exact hg
  have hr' : (histCore (save_history_state^[n] s0)).2.2 = [] := by
    rw [hsave]
    exact hr
  have hchain : histCore (redoFn^[k] (undoFn^[k] (save_history_state^[n] s0)))
      = histCore (save_history_state^[n] s0) := by
    rw [histCore_redo_iter, histCore_undo_iter]
    exact core_roundtrip _ hg' hr' k
  exact congrArg Prod.fst hchain

/-- Witness for C2: one panel, two commits, one undo, one redo. -/
theorem c2_commits_undo_redo_roundtrip_witness :
    (redoFn^[1] (undoFn^[1]
        (save_history_state^[2] { panels := [{ id := ("a") }] }))).panels
      = (save_history_state^[2] ({ panels := [{ id := ("a") }] } : PCState)).panels :=
  c2_commits_undo_redo_roundtrip { panels := [{ id := ("a") }] } 2 1
    (by norm_num) (by simp [MAX_HISTORY_SIZE])

/-! Export-rasterizer lemmas for C5, C6 and C7. -/

theorem mem_insertByLayer (p q : Panel) (l : List Panel) :
    q ∈ insertByLayer p l ↔ q = p ∨ q ∈ l := by
  induction l with
  | nil => simp [insertByLayer]
  | cons a t ih =>
    simp only [insertByLayer]
    split_ifs <;> (simp [ih]; try tauto)

theorem mem_sortPanelsByLayer_fold (l : List Panel) :
    ∀ (acc : List Panel) (q : Panel),
      q ∈ l.foldl (fun a p => insertByLayer p a) acc ↔ q ∈ acc ∨ q ∈ l := by
  induction l with
  | nil => simp
  | cons p t ih =>
    intro acc q
    rw [List.foldl_cons, ih]
    simp [mem_insertByLayer]
    tauto

theorem mem_sortPanelsByLayer (q : Panel) (l : List Panel) :
    q ∈ sortPanelsByLayer l ↔ q ∈ l := by
  simp [sortPanelsByLayer, mem_sortPanelsByLayer_fold]

/-- A visible speech bubble anywhere in the list makes the panel loop raise
(the `math` NameError), whatever comes before or after it. -/
theorem render_panel_loop_error_of_speech (sx sy : ℚ) (l : List Panel)
    (h : ∃ p ∈ l, p.visible = true ∧ p.panel_type = PanelType.speechBubble) :
    render_panel_loop sx sy l
      = Except.error ("NameError: name 'math' is not defined") := by
  induction l with
  | nil => simp at h
  | cons p rest ih =>
    obtain ⟨q, hq, hqv, hqs⟩ := h
    rcases List.mem_cons.mp hq with hqp | hqr
    · subst hqp
      simp only [render_panel_loop, hqv, hqs]
      rfl
    · have hrest := ih ⟨q, hqr, hqv, hqs⟩
      simp only [render_panel_loop]
      split_ifs <;> simp [hrest]

/-- With no visible speech bubble the panel loop succeeds. -/
theorem render_panel_loop_ok_of_no_speech (sx sy : ℚ) (l : List Panel)
    (h : ∀ p ∈ l, ¬(p.visible = true ∧ p.panel_type = PanelType.speechBubble)) :
    ∃ ids, render_panel_loop sx sy l = Except.ok ids := by
  induction l with
  | nil => exact ⟨[], rfl⟩
  | cons p rest ih =>
    obtain ⟨ids, hids⟩ := ih fun q hq => h q (List.mem_cons_of_mem _ hq)
    by_cases hv : p.visible = false
    · exact ⟨ids, by simp [render_panel_loop, hv, hids]⟩
    · have hnsp : ¬ p.panel_type = PanelType.speechBubble := by
        intro hsp
        exact h p (List.mem_cons_self _ _) ⟨by simpa using hv, hsp⟩
      by_cases hdim : truncInt ((p.x + p.width - p.x) * sx) ≤ 0 ∨
          truncInt ((p.y + p.height - p.y) * sy) ≤ 0
      · refine ⟨ids, ?_⟩
        simp only [render_panel_loop]
        rw [if_neg hv, if_neg hnsp, if_pos hdim]
        exact hids
      · refine ⟨p.id :: ids, ?_⟩
        simp only [render_panel_loop]
        rw [if_neg hv, if_neg hnsp, if_neg hdim, hids]

/-- Success value of the panel loop: exactly the visible, non-speech-bubble
panels with positive pixel box, in order, are rendered. -/
theorem render_panel_loop_ok_filter (sx sy : ℚ) (l : List Panel) (ids : List String)
    (h : render_panel_loop sx sy l = Except.ok ids) :
    ids = (l.filter fun p => p.visible
            && !(p.panel_type == PanelType.speechBubble)
            && decide (0 < truncInt (p.width * sx))
            && decide (0 < truncInt (p.height * sy))).map Panel.id := by
  induction l generalizing ids with
  | nil =>
    simp only [render_panel_loop] at h
    cases h
    simp
  | cons p rest ih =>
    have hxw : p.x + p.width - p.x = p.width := by ring
    have hyh : p.y + p.height - p.y = p.height := by ring
    simp only [render_panel_loop, hxw, hyh] at h
    by_cases hv : p.visible = false
    · rw [if_pos hv] at h
      rw [ih ids h, List.filter_cons]
      simp [hv]
    · rw [if_neg hv] at h
      have hv' : p.visible = true := by simpa using hv
      by_cases hsp : p.panel_type = PanelType.speechBubble
      · rw [if_pos hsp] at h
        cases h
      · rw [if_neg hsp] at h
        by_cases hdim : truncInt (p.width * sx) ≤ 0 ∨ truncInt (p.height * sy) ≤ 0
        · rw [if_pos hdim] at h
          rw [ih ids h, List.filter_cons]
          have : (p.visible && !(p.panel_type == PanelType.speechBubble)
              && decide (0 < truncInt (p.width * sx))
              && decide (0 < truncInt (p.height * sy))) = false := by
            rcases hdim with hd | hd <;>
              simp [hv', hsp, decide_eq_false, not_lt.mpr hd]
          rw [this]
          simp
        · rw [if_neg hdim] at h
          push_neg at hdim
          cases hrec : render_panel_loop sx sy rest with
          | error e =>
            rw [hrec] at h
            cases h
          | ok ids' =>
            rw [hrec] at h
            cases h
            rw [List.filter_cons]
            have hpred : (p.visible && !(p.panel_type == PanelType.speechBubble)
                && decide (0 < truncInt (p.width * sx))
                && decide (0 < truncInt (p.height * sy))) = true := by
              simp [hv', hsp, hdim.1, hdim.2]
            simp [hpred, ih ids' hrec]

/-- C6: `export_manager.py` never imports `math`, yet the speech-bubble
tail-expansion code in `render_page_to_image` evaluates `math.pi` and
`math.cos`; for every panel list containing at least one visible
speech-bubble panel (and a page whose canvas size is nonzero, so the loop
is reached), the resulting `NameError` is caught by the enclosing `except`
and the function returns `None`: exporting such a page always fails. -/
theorem c6_visible_speech_bubble_aborts_export (page_width page_height : ℚ)
    (panels : List Panel) (st : ExportSettings)
    (hW : page_width ≠ 0) (hH : page_height ≠ 0)
    (hsb : ∃ p ∈ panels, p.visible = true ∧ p.panel_type = PanelType.speechBubble) :
    render_page_to_image page_width page_height panels st = none := by
  have hsorted : ∃ p ∈ sortPanelsByLayer panels,
      p.visible = true ∧ p.panel_type = PanelType.speechBubble := by
    obtain ⟨p, hp, h1, h2⟩ := hsb
    exact ⟨p, (mem_sortPanelsByLayer p panels).mpr hp, h1, h2⟩
  have herr := render_panel_loop_error_of_speech
    (((export_page_dims page_width page_height st).1 : ℚ) / page_width)
    (((export_page_dims page_width page_height st).2 : ℚ) / page_height)
    (sortPanelsByLayer panels) hsorted
  simp only [render_page_to_image]
  split_ifs
  all_goals try rfl
  all_goals try (rw [herr])
  all_goals
    rename_i hzero
    exact absurd hzero (by simp [hW, hH])

/-- Witness for C6: the default page with a single visible speech bubble
and default export settings renders to `None`. -/
theorem c6_visible_speech_bubble_aborts_export_witness :
    render_page_to_image 595 842
      [{ id := ("sb"), panel_type := PanelType.speechBubble }] {} = none :=
  c6_visible_speech_bubble_aborts_export 595 842
    [{ id := ("sb"), panel_type := PanelType.speechBubble }] {}
    (by norm_num) (by norm_num)
    ⟨{ id := ("sb"), panel_type := PanelType.speechBubble },
      List.mem_singleton.mpr rfl, rfl, rfl⟩

/-- C7: exporting with target DPI 300, page size "current canvas" and bleed
disabled produces a buffer of exactly the Document's page units `w × h`
(identity scale), for any positive integer page size and any panel list the
rasterizer can finish (no visible speech bubble, which would hit the
`math` NameError of C6). -/
theorem c7_identity_scale_export (w h : ℕ) (panels : List Panel) (st : ExportSettings)
    (hw : 0 < w) (hh : 0 < h)
    (hdpi : st.dpi = 300) (hname : st.export_page_size_name = "Текущий холст")
    (hbleed : st.include_bleed = false)
    (hns : ∀ p ∈ panels, ¬(p.visible = true ∧ p.panel_type = PanelType.speechBubble)) :
    ∃ ids, render_page_to_image (w : ℚ) (h : ℚ) panels st
      = some { total_width := (w : ℤ), total_height := (h : ℤ),
               rendered_panel_ids := ids } := by
  have hdims : export_page_dims (w : ℚ) (h : ℚ) st = ((w : ℤ), (h : ℤ)) := by
    simp only [export_page_dims, hname, if_pos, hdpi, REFERENCE_DPI_FOR_PAGE_SIZES]
    norm_num [truncInt]
  obtain ⟨ids, hids⟩ := render_panel_loop_ok_of_no_speech
    (((export_page_dims (w : ℚ) (h : ℚ) st).1 : ℚ) / (w : ℚ))
    (((export_page_dims (w : ℚ) (h : ℚ) st).2 : ℚ) / (h : ℚ))
    (sortPanelsByLayer panels)
    (fun p hp => hns p ((mem_sortPanelsByLayer p panels).mp hp))
  refine ⟨ids, ?_⟩
  have hpos1 : ¬((export_page_dims (w : ℚ) (h : ℚ) st).1 ≤ 0 ∨
      (export_page_dims (w : ℚ) (h : ℚ) st).2 ≤ 0) := by
    rw [hdims]
    push_neg
    refine ⟨?_, ?_⟩ <;> dsimp only
    · exact_mod_cast hw
    · exact_mod_cast hh
  simp only [render_page_to_image, hbleed, Bool.false_eq_true, if_false, ite_false]
  rw [if_neg hpos1]
  rw [if_neg (by rw [hdims]; norm_num : ¬((export_page_dims (w : ℚ) (h : ℚ) st).1 + 0 * 2 < 0 ∨
      (export_page_dims (w : ℚ) (h : ℚ) st).2 + 0 * 2 < 0))]
  rw [if_neg (by push_neg; constructor <;> positivity : ¬((w : ℚ) = 0 ∨ (h : ℚ) = 0))]
  rw [hids]
  rw [hdims]
  norm_num

/-- Witness for C7: the B5 page (2079×2953) with one default rectangular
panel and default settings exports to a 2079×2953 buffer. -/
theorem c7_identity_scale_export_witness :
    ∃ ids, render_page_to_image ((2079 : ℕ) : ℚ) ((2953 : ℕ) : ℚ)
      [{ id := ("r1") }] {}
      = some { total_width := ((2079 : ℕ) : ℤ), total_height := ((2953 : ℕ) : ℤ),
               rendered_panel_ids := ids } :=
  c7_identity_scale_export 2079 2953 [{ id := ("r1") }] {}
    (by norm_num) (by norm_num) rfl rfl rfl
    (by
      intro p hp
      rw [List.mem_singleton.mp hp]
      rintro ⟨_, hc⟩
      cases hc)

/-- C5 (amended): only a non-positive computed PAGE pixel size aborts the
whole export (returns `None`); a zero-or-negative per-panel pixel bounding
box causes just that panel to be skipped while the export continues with
the remaining panels (the buffer lists exactly the visible non-bubble
panels with positive pixel boxes); and (with nonnegative bleed and positive
DPI) a produced buffer never has a zero or negative pixel dimension. -/
theorem c5_amended_dimension_policy (page_width page_height : ℚ) (panels : List Panel)
    (st : ExportSettings) (hdpi : 0 < st.dpi) (hbleed : 0 ≤ st.bleed_size) :
    ((export_page_dims page_width page_height st).1 ≤ 0 ∨
      (export_page_dims page_width page_height st).2 ≤ 0 →
        render_page_to_image page_width page_height panels st = none) ∧
    (∀ r, render_page_to_image page_width page_height panels st = some r →
      0 < r.total_width ∧ 0 < r.total_height ∧
      r.rendered_panel_ids = ((sortPanelsByLayer panels).filter fun p =>
          p.visible && !(p.panel_type == PanelType.speechBubble)
          && decide (0 < truncInt (p.width
              * (((export_page_dims page_width page_height st).1 : ℚ) / page_width)))
          && decide (0 < truncInt (p.height
              * (((export_page_dims page_width page_height st).2 : ℚ) / page_height)))).map
          Panel.id) := by
  have hbp : 0 ≤ (if st.include_bleed then truncInt (mm_to_pixels st.bleed_size st.dpi) else 0) := by
    split_ifs
    · have hmm : 0 ≤ mm_to_pixels st.bleed_size st.dpi := by
        have : (0:ℚ) < 254/10 := by norm_num
        exact mul_nonneg (div_nonneg hbleed (le_of_lt this)) (le_of_lt hdpi)
      simp only [truncInt, if_pos hmm]
      exact Int.floor_nonneg.mpr hmm
    · exact le_refl 0
  constructor
  · intro hz
    simp only [render_page_to_image]
    rw [if_pos hz]
  · intro r hr
    by_cases hz : (export_page_dims page_width page_height st).1 ≤ 0 ∨
        (export_page_dims page_width page_height st).2 ≤ 0
    · exfalso
      rw [show render_page_to_image page_width page_height panels st = none by
            simp only [render_page_to_image]; rw [if_pos hz]] at hr
      cases hr
    · push_neg at hz
      simp only [render_page_to_image] at hr
      rw [if_neg (by push_neg; exact hz)] at hr
      rw [if_neg (by push_neg; constructor <;> [skip; skip] <;> omega)] at hr
      by_cases hc : page_width = 0 ∨ page_height = 0
      · rw [if_pos hc] at hr
        cases hr
        refine ⟨by dsimp only; omega, by dsimp only; omega, ?_⟩
        have hfilter : ((sortPanelsByLayer panels).filter fun p =>
            p.visible && !(p.panel_type == PanelType.speechBubble)
            && decide (0 < truncInt (p.width
                * (((export_page_dims page_width page_height st).1 : ℚ) / page_width)))
            && decide (0 < truncInt (p.height
                * (((export_page_dims page_width page_height st).2 : ℚ) / page_height)))) = [] := by
          rw [List.filter_eq_nil_iff]
          intro p _
          rcases hc with hc0 | hc0 <;>
            simp [hc0, truncInt]
        rw [hfilter]
        rfl
      · rw [if_neg hc] at hr
        cases hloop : render_panel_loop
            (((export_page_dims page_width page_height st).1 : ℚ) / page_width)
            (((export_page_dims page_width page_height st).2 : ℚ) / page_height)
            (sortPanelsByLayer panels) with
        | error e =>
          rw [hloop] at hr
          cases hr
        | ok ids =>
          rw [hloop] at hr
          cases hr
          exact ⟨by dsimp only; omega, by dsimp only; omega,
            render_panel_loop_ok_filter _ _ (sortPanelsByLayer panels) ids hloop⟩

/-- C5 counterexample: on the default page with default settings, a panel
of page-space width 0.5 gets a computed pixel width of 0 — yet the export
does NOT abort: the zero-box panel is skipped, the remaining panel is still
rendered, and a 595×842 buffer is produced. -/
theorem c5_counterexample :
    truncInt (({ id := ("tiny"), width := 1/2 } : Panel).width
        * (((export_page_dims 595 842 {}).1 : ℚ) / 595)) = 0 ∧
    render_page_to_image 595 842
        [{ id := ("tiny"), width := 1/2 }, { id := ("big"), layer := 1 }] {}
      = some { total_width := 595, total_height := 842,
               rendered_panel_ids := ["big"] } := by
  have hdims : export_page_dims 595 842 {} = (595, 842) := by
    simp only [export_page_dims, REFERENCE_DPI_FOR_PAGE_SIZES]
    norm_num [truncInt]
  have hsort : sortPanelsByLayer
      [{ id := ("tiny"), width := 1/2 }, { id := ("big"), layer := 1 }]
      = [{ id := ("tiny"), width := 1/2 }, { id := ("big"), layer := 1 }] := by
    norm_num [sortPanelsByLayer, insertByLayer]
  have hne : PanelType.rectangular ≠ PanelType.speechBubble := by decide
  have hloop : render_panel_loop (1 : ℚ) (1 : ℚ)
      [{ id := ("tiny"), width := 1/2 }, { id := ("big"), layer := 1 }]
      = Except.ok ["big"] := by
    simp only [render_panel_loop]
    norm_num [truncInt, hne]
  constructor
  · rw [hdims]
    dsimp only
    norm_num [truncInt]
  · simp only [render_page_to_image, hdims]
    norm_num [hsort]
    rw [hloop]

/-- Witness for C5's amended theorem: a custom 0×0 export pixel size aborts
the export of the default page (returns `None`). -/
theorem c5_amended_dimension_policy_witness :
    render_page_to_image 595 842 []
      { export_page_size_name := "Пользовательский",
        custom_export_width_px := some 0, custom_export_height_px := some 0 } = none := by
  have hdims : export_page_dims 595 842
      { export_page_size_name := "Пользовательский",
        custom_export_width_px := some 0, custom_export_height_px := some 0 } = (0, 0) := by
    simp [export_page_dims]
  exact (c5_amended_dimension_policy 595 842 []
      { export_page_size_name := "Пользовательский",
        custom_export_width_px := some 0, custom_export_height_px := some 0 }
      (by norm_num) (by norm_num)).1 (by rw [hdims]; norm_num)

end MangaConstructor
